import Mathlib

/-!
Verification of the updater bootstrap (`src/updater/bootstrap.js`).

The JavaScript source is a single async pipeline: resolve the remote
version, compare it with the current version via the `semver` library,
consult a percentage rollout gate with a persisted per-version roll,
download the updater binary into a temp directory, and spawn it detached.

The shallow embedding below threads the filesystem state and an event
trace explicitly.  Network responses, the random draw, and the success of
window creation / process spawning are inputs (an `Env` record), so every
run of the pipeline is a total function.  Awaited asynchronous operations
are sequenced exactly as the single-threaded event loop sequences them;
an operation started without `await` contributes only the part that runs
synchronously before its first suspension (this matters for the
un-awaited `ensureDir(info.tempDir)` call in `entry`).  A promise that
never settles — the download's unhandled transport error — is a distinct
outcome (`none`), not an error value: the code after its `await` never
runs.
-/

namespace Bootstrap

/-! ### Semantic versions and the `semver` comparison used by `entry`

`semver.eq` / `semver.gt` compare major.minor.patch numerically and then
compare pre-release identifier lists: a version without pre-release
identifiers is greater than one with them; identifier lists are compared
pairwise, numeric identifiers numerically, numeric below alphanumeric,
alphanumeric ones lexically, and a strict prefix list is smaller.
Build metadata never participates in the ordering, so it is omitted. -/

inductive PreId where
  | num (n : Nat)
  | str (s : String)
deriving DecidableEq

structure SemVer where
  major : Nat
  minor : Nat
  patch : Nat
  pre : List PreId := []
deriving DecidableEq

def comparePreId : PreId → PreId → Ordering
  | .num a, .num b => compare a b
  | .num _, .str _ => .lt
  | .str _, .num _ => .gt
  | .str a, .str b => compare a b

def comparePreList : List PreId → List PreId → Ordering
  | [], [] => .eq
  | [], _ :: _ => .lt
  | _ :: _, [] => .gt
  | a :: as, b :: bs =>
    match comparePreId a b with
    | .eq => comparePreList as bs
    | o => o

/-- Pre-release comparison: no pre-release outranks any pre-release. -/
def comparePre : List PreId → List PreId → Ordering
  | [], [] => .eq
  | [], _ :: _ => .gt
  | _ :: _, [] => .lt
  | a, b => comparePreList a b

def semverCompare (a b : SemVer) : Ordering :=
  match compare a.major b.major with
  | .eq =>
    match compare a.minor b.minor with
    | .eq =>
      match compare a.patch b.patch with
      | .eq => comparePre a.pre b.pre
      | o => o
    | o => o
  | o => o

def renderPreId : PreId → String
  | .num n => Nat.repr n
  | .str s => s

def renderPreList : List PreId → String
  | [] => ""
  | [p] => renderPreId p
  | p :: ps => renderPreId p ++ "." ++ renderPreList ps

/-- The version string as it appears in URLs and cache paths. -/
def renderSemVer (v : SemVer) : String :=
  Nat.repr v.major ++ "." ++ Nat.repr v.minor ++ "." ++ Nat.repr v.patch ++
    (match v.pre with
     | [] => ""
     | ps => "-" ++ renderPreList ps)

/-! ### JavaScript `parseInt` on a decimal string

`getPreviousRoll` runs `parseInt(data)` on the raw cache-file content:
leading whitespace is skipped, an optional sign is consumed, and the
longest leading digit run gives the value; no digits gives `NaN`,
modelled as `none`. -/

def digitRunVal (cs : List Char) : Option Nat :=
  let ds := cs.takeWhile Char.isDigit
  if ds.isEmpty then none
  else some (ds.foldl (fun a c => a * 10 + (c.toNat - '0'.toNat)) 0)

def parseIntJS (s : String) : Option Int :=
  let cs := s.toList.dropWhile fun c =>
    c = ' ' || c = '\t' || c = '\n' || c = '\r'
  match cs with
  | '-' :: rest => (digitRunVal rest).map fun n => -(n : Int)
  | '+' :: rest => (digitRunVal rest).map fun n => (n : Int)
  | _ => (digitRunVal cs).map fun n => (n : Int)

/-! ### Paths and a tiny filesystem

The target platform is Windows (the binary is `latest-updater.exe`), so
`path.sep` is a backslash.  `path.join`/`path.resolve` are modelled as
separator concatenation, and `path.dirname` drops the last component.
Files are an association list from path to content; `mkdir` always
succeeds in the model (a failing `mkdir` other than `EEXIST` is
re-thrown by `mkdirMaybe`, which the claims do not exercise). -/

def pathSepChar : Char := '\\'

def pathSep : String := "\\"

def pathJoin (a b : String) : String := a ++ pathSep ++ b

/-- Split a character list on the separator (the string split used by
`ensureDir`; the separator is a single character). -/
def splitSep : List Char → List (List Char)
  | [] => [[]]
  | c :: rest =>
    if c = pathSepChar then [] :: splitSep rest
    else
      match splitSep rest with
      | [] => [[c]]
      | g :: gs => (c :: g) :: gs

def pathSplit (p : String) : List String :=
  (splitSep p.toList).map fun cs => String.mk cs

def joinSep : List String → String
  | [] => ""
  | [d] => d
  | d :: ds => d ++ pathSep ++ joinSep ds

def pathDirname (p : String) : String :=
  joinSep (pathSplit p).dropLast

/-- The directories `ensureDir` creates, in order: it splits on the
separator, skips the first component, and `mkdir`s each progressively
longer join. -/
def ensureDirPaths (dirPath : String) : List String :=
  match pathSplit dirPath with
  | [] => []
  | d0 :: rest => (rest.scanl (fun acc d => acc ++ pathSep ++ d) d0).drop 1

structure Fs where
  files : List (String × String)
deriving DecidableEq

def Fs.read (fs : Fs) (p : String) : Option String :=
  (fs.files.find? fun kv => kv.fst = p).map Prod.snd

def Fs.write (fs : Fs) (p c : String) : Fs :=
  ⟨(p, c) :: fs.files.filter fun kv => kv.fst ≠ p⟩

/-! ### Inputs of one run

`Info` is the caller-supplied configuration (the `info` argument).  The
current version and the remote `version` field are taken as parsed
semantic versions: `semver.eq`/`semver.gt` throw on a string that is not
a valid semantic version, which resolves the run to `false` exactly like
the explicit failure branches, so only valid versions are interesting.

`Env` fixes everything the outside world contributes to one run: the
three HTTP responses, the random draw, and whether window creation and
process spawning succeed.  `transportOk = false` on the version or
chance response makes the corresponding `await prequest` reject (the
promisified callback receives the error).  On the binary response it
instead means a transport failure of the streaming download, whose
`error` event nothing listens to — see `fetchUpdater` below. -/

structure Info where
  baseUrl : String
  version : SemVer
  versionFileName : String
  tempDir : String
  cacheDir : String
  exec : String
  cwd : String
  appDir : String
  waitPids : List Int
deriving DecidableEq

/-- Response of `GET {baseUrl}/{versionFileName}` with `json: true`.
`version = none` covers both a body without a usable `version` field and
a non-JSON body (the `request` library then leaves the body a string,
whose `.version` is `undefined`). -/
structure VersionResponse where
  transportOk : Bool
  statusCode : Nat
  version : Option SemVer
deriving DecidableEq

/-- Response of `GET {baseUrl}/{version}.chance`.  `bodyValidJson = false`
means `JSON.parse(response.body)` throws; otherwise `chance` is the
integer `chance` field of the parsed body, `none` when absent. -/
structure ChanceResponse where
  transportOk : Bool
  statusCode : Nat
  bodyValidJson : Bool
  chance : Option Int
deriving DecidableEq

/-- Response of `GET {baseUrl}/latest-updater.exe`.
`transportOk = false` is a transport failure of the download — an
`error` on the *request* stream, which `fetchUpdater` attaches no
listener to (stream errors do not cross `.pipe`), so the download
promise never settles.  `streamOk = false` is an `error` on the *file*
stream, which does reject the promise.  `body` is whatever the server
streams, also on a non-200 status: `request(...).pipe(outStream)` pipes
the body regardless of the status code. -/
structure BinaryResponse where
  transportOk : Bool
  streamOk : Bool
  statusCode : Nat
  body : String
deriving DecidableEq

structure Env where
  versionResp : VersionResponse
  chanceResp : ChanceResponse
  binaryResp : BinaryResponse
  /-- `Math.trunc(Math.random() * 100)`, an integer in `[0, 99]`. -/
  rand : Fin 100
  /-- whether `new BrowserWindow` + `loadURL` succeed. -/
  windowOk : Bool
  /-- whether the `cp.spawn` call returns without throwing. -/
  spawnOk : Bool

/-- Every way a run can reject before the top-level `catch`. -/
inductive JsErr where
  | network
  | jsonParse
  | fetchFailed (status : Nat)
  | streamError
  | typeError
  | spawnError
deriving DecidableEq

/-- Trace events, recorded in the order the single-threaded code starts
each operation.  For operations that are awaited, completion coincides
with this sequencing; `mkdirIssued` marks the moment `fs.mkdir` is
called, which for the un-awaited `ensureDir(info.tempDir)` is all the
sequencing the code provides. -/
inductive Ev where
  | reqVersion
  | reqChance
  | readRollCache (path : String)
  | mkdirIssued (path : String)
  | writeRollCache (path : String)
  | windowOpened
  | fileCreated (path : String)
  | reqBinary
  | spawned (cmd : String) (args : List String)
  | windowClosed
deriving DecidableEq

def spawnedIn (evs : List Ev) : Bool :=
  evs.any fun e =>
    match e with
    | .spawned _ _ => true
    | _ => false

/-- `evBefore evs a b` holds when some occurrence of `a` is strictly
before some occurrence of `b` in `evs`. -/
def evBefore : List Ev → Ev → Ev → Bool
  | [], _, _ => false
  | e :: rest, a, b => (e = a && rest.contains b) || evBefore rest a b

/-- JavaScript `roll <= chance` where `chance` may be `undefined`:
any `<=` comparison against `undefined` is `false`. -/
def jsLe (r : Int) (c : Option Int) : Bool :=
  match c with
  | some c => r ≤ c
  | none => false

/-- The manual quoting `entry` applies to each path-valued argument. -/
def quoteArg (s : String) : String := "\"" ++ s ++ "\""

/-! ### The rollout gate (`getPreviousRoll`, `checkChance`) -/

/-- `getPreviousRoll`: a read error resolves to `0`; otherwise
`parseInt(data)` with `NaN` and `0` both collapsed to `0` by the
`if (!roll) roll = 0` guard.  Note the only rejected parsed value is
`0`: any other integer, however large or negative, is returned. -/
def getPreviousRoll (fs : Fs) (cacheFile : String) : Int :=
  match fs.read cacheFile with
  | none => 0
  | some data =>
    match parseIntJS data with
    | none => 0
    | some r => if r = 0 then 0 else r

instance {ε α : Type} [DecidableEq ε] [DecidableEq α] : DecidableEq (Except ε α) := fun a b =>
  match a, b with
  | .ok x, .ok y =>
    if h : x = y then .isTrue (by rw [h]) else .isFalse (by simp [h])
  | .error x, .error y =>
    if h : x = y then .isTrue (by rw [h]) else .isFalse (by simp [h])
  | .ok _, .error _ => .isFalse (by simp)
  | .error _, .ok _ => .isFalse (by simp)

structure GateOut where
  result : Except JsErr Bool
  rollUsed : Option Int
  fs : Fs
  events : List Ev
deriving DecidableEq

/-- `path.join(info.cacheDir, 'rolls', version)`. -/
def rollCachePath (info : Info) (version : SemVer) : String :=
  pathJoin (pathJoin info.cacheDir "rolls") (renderSemVer version)

/-- `checkChance`: fetch `/{version}.chance`; non-200 fails open with
`true`; on 200 the body is `JSON.parse`d (throwing on invalid JSON),
the cached roll is consulted, a fresh roll `trunc(random()*100)+1` is
drawn and persisted (after an awaited `ensureDir` on the cache's parent
directory) when the cached one is `0`, and the gate answers
`roll <= chance`. -/
def checkChance (info : Info) (version : SemVer) (resp : ChanceResponse)
    (rand : Fin 100) (fs : Fs) : GateOut :=
  if ¬ resp.transportOk then
    { result := .error .network, rollUsed := none, fs := fs
      events := [.reqChance] }
  else if resp.statusCode ≠ 200 then
    { result := .ok true, rollUsed := none, fs := fs
      events := [.reqChance] }
  else if ¬ resp.bodyValidJson then
    { result := .error .jsonParse, rollUsed := none, fs := fs
      events := [.reqChance] }
  else
    let rollCache := rollCachePath info version
    let prev := getPreviousRoll fs rollCache
    if prev = 0 then
      let roll : Int := ((rand : Nat) : Int) + 1
      { result := .ok (jsLe roll resp.chance)
        rollUsed := some roll
        fs := fs.write rollCache (Nat.repr ((rand : Nat) + 1))
        events := [.reqChance, .readRollCache rollCache] ++
          (ensureDirPaths (pathDirname rollCache)).map Ev.mkdirIssued ++
          [.writeRollCache rollCache] }
    else
      { result := .ok (jsLe prev resp.chance)
        rollUsed := some prev
        fs := fs
        events := [.reqChance, .readRollCache rollCache] }

/-! ### The downloader (`fetchUpdater`)

`fetchUpdater`'s promise settles through exactly two listeners, both
attached to the *file* stream the request is piped into: `close`
resolves and `error` rejects.  The request stream itself only gets a
`response` listener (whose handler rejects on a non-200 status).  An
`error` on the request stream — a transport failure — therefore has no
listener, and stream errors do not cross `.pipe`: Node rethrows the
event as an uncaught exception and the promise never settles.  A
`FetchOut.result` of `none` models that outcome: neither `resolve` nor
`reject` ever runs, so nothing downstream of the `await` executes. -/

structure FetchOut where
  result : Option (Except JsErr String)
  fs : Fs
  events : List Ev
deriving DecidableEq

/-- `fetchUpdater`: `createWriteStream` creates (truncates) the output
file before any byte arrives; the request is then piped into it.  A
non-200 status rejects the promise, but the pipe is not torn down, so
the response body still lands in the file.  A write-stream error
rejects; a transport error on the request stream settles nothing
(`none`, see above). -/
def fetchUpdater (info : Info) (resp : BinaryResponse) (fs : Fs) : FetchOut :=
  let updaterPath := pathJoin info.tempDir "latest-updater.exe"
  let fs0 := fs.write updaterPath ""
  let startEvs := [Ev.fileCreated updaterPath, Ev.reqBinary]
  if ¬ resp.transportOk then
    { result := none, fs := fs0, events := startEvs }
  else if ¬ resp.streamOk then
    { result := some (.error .streamError), fs := fs0, events := startEvs }
  else if resp.statusCode ≠ 200 then
    { result := some (.error (.fetchFailed resp.statusCode))
      fs := fs0.write updaterPath resp.body, events := startEvs }
  else
    { result := some (.ok updaterPath)
      fs := fs0.write updaterPath resp.body, events := startEvs }

/-! ### The orchestrator (`getVersion`, `entry`, `module.exports`) -/

/-- `getVersion`: `await prequest` (a transport failure rejects), then
`null` on a non-200 status, else the body's `version` field. -/
def getVersion (resp : VersionResponse) : Except JsErr (Option SemVer) :=
  if ¬ resp.transportOk then .error .network
  else if resp.statusCode ≠ 200 then .ok none
  else .ok resp.version

/-- The argument vector `entry` assembles before the `for .. in` loop
over `waitPids` runs (each path-valued argument individually quoted). -/
def updaterArgsFor (info : Info) (latest : SemVer) : List String :=
  ["--base-url", quoteArg info.baseUrl,
   "--version", quoteArg (renderSemVer latest),
   "--exec", quoteArg info.exec,
   "--cwd", quoteArg info.cwd,
   "--app-dir", quoteArg info.appDir,
   "--force-temp"]

/-- Outcome of `entry`: `some (.ok b)` for a resolution, `some (.error e)`
for a rejection (handled by the exported `catch`), and `none` when the
`await`ed download promise never settles — execution of `entry` stops at
that `await` forever while the uncaught stream error takes down the
process, so neither the spawn, the window close nor the top-level
`catch` ever runs. -/
structure RunOut where
  result : Option (Except JsErr Bool)
  windowOpen : Bool
  fs : Fs
  events : List Ev
deriving DecidableEq

/-- The tail of `entry` from the positive gate decision on: open the
status window (best effort), start the un-awaited
`ensureDir(info.tempDir)`, download, build the argument list and spawn.
`pre` is the trace accumulated so far.  Two deliberate source details
are kept:

* `ensureDir(info.tempDir)` is called without `await`, so only its
  synchronous part — issuing `mkdir` for the *first* created component —
  runs before `fetchUpdater` constructs the write stream; the remaining
  `mkdir`s are only issued after `entry` has suspended awaiting the
  download (they are placed after the download's start events).
* the `for (pid in info.waitPids)` loop calls `push_back`, which is not
  a JavaScript array method, so the first iteration throws a
  `TypeError`; with a non-empty `waitPids` the spawn is never reached. -/
def downloadAndLaunch (info : Info) (env : Env) (latest : SemVer) (fs : Fs)
    (pre : List Ev) : RunOut :=
  let win := env.windowOk
  let tempPaths := ensureDirPaths info.tempDir
  let f := fetchUpdater info env.binaryResp fs
  let evs := pre ++
    (if win then [Ev.windowOpened] else []) ++
    (tempPaths.take 1).map Ev.mkdirIssued ++ f.events ++
    (tempPaths.drop 1).map Ev.mkdirIssued
  match f.result with
  | none =>
    { result := none, windowOpen := win, fs := f.fs, events := evs }
  | some (.error e) =>
    { result := some (.error e), windowOpen := win, fs := f.fs, events := evs }
  | some (.ok updaterPath) =>
    if info.waitPids ≠ [] then
      { result := some (.error .typeError), windowOpen := win, fs := f.fs
        events := evs }
    else if env.spawnOk then
      { result := some (.ok true), windowOpen := false, fs := f.fs
        events := evs ++ [.spawned updaterPath (updaterArgsFor info latest)] ++
          (if win then [Ev.windowClosed] else []) }
    else
      { result := some (.error .spawnError), windowOpen := win, fs := f.fs
        events := evs }

/-- The gate consultation inside `entry`: a negative or failed gate
halts the run, a positive one continues with the download. -/
def gateStage (info : Info) (env : Env) (latest : SemVer) (fs : Fs) : RunOut :=
  let g := checkChance info latest env.chanceResp env.rand fs
  match g.result with
  | .error e =>
    { result := some (.error e), windowOpen := false, fs := g.fs
      events := .reqVersion :: g.events }
  | .ok false =>
    { result := some (.ok false), windowOpen := false, fs := g.fs
      events := .reqVersion :: g.events }
  | .ok true => downloadAndLaunch info env latest g.fs (.reqVersion :: g.events)

def entry (info : Info) (env : Env) (fs : Fs) : RunOut :=
  match getVersion env.versionResp with
  | .error e =>
    { result := some (.error e), windowOpen := false, fs := fs
      events := [.reqVersion] }
  | .ok none =>
    { result := some (.ok false), windowOpen := false, fs := fs
      events := [.reqVersion] }
  | .ok (some latest) =>
    if semverCompare info.version latest = .eq then
      { result := some (.ok false), windowOpen := false, fs := fs
        events := [.reqVersion] }
    else if semverCompare info.version latest = .gt then
      { result := some (.ok false), windowOpen := false, fs := fs
        events := [.reqVersion] }
    else gateStage info env latest fs

/-- What the exported promise delivers: `some b` when it resolves,
`none` when it never settles (the caller's `await` waits forever while
the unhandled stream error crashes the process). -/
structure BootOut where
  result : Option Bool
  windowOpen : Bool
  fs : Fs
  events : List Ev
deriving DecidableEq

/-- `module.exports`: run `entry` and `catch` any rejection, closing the
status window when it is still open and resolving to `false`.  The
`catch` can only act on a settled promise: when `entry` never settles,
no boolean is ever delivered and the window stays as it was. -/
def bootstrap (info : Info) (env : Env) (fs : Fs) : BootOut :=
  let r := entry info env fs
  match r.result with
  | none =>
    { result := none, windowOpen := r.windowOpen, fs := r.fs, events := r.events }
  | some (.ok b) =>
    { result := some b, windowOpen := r.windowOpen, fs := r.fs, events := r.events }
  | some (.error _) =>
    { result := some false, windowOpen := false, fs := r.fs
      events := r.events ++ (if r.windowOpen then [Ev.windowClosed] else []) }

end Bootstrap


namespace Bootstrap

/-! ### Concrete fixtures

A small installation used by witnesses and counterexamples: current
version `1.0.0`, remote version `1.2.0`, Windows-style directories. -/

def v100 : SemVer := ⟨1, 0, 0, []⟩

def v120 : SemVer := ⟨1, 2, 0, []⟩

def sampleInfo : Info :=
  { baseUrl := "https://slobs-cdn.example.com"
    version := v100
    versionFileName := "latest.json"
    tempDir := "C:\\app\\temp"
    cacheDir := "C:\\app\\cache"
    exec := "C:\\app\\Streamlabs OBS.exe"
    cwd := "C:\\app"
    appDir := "C:\\app\\resources"
    waitPids := [] }

def fsEmpty : Fs := ⟨[]⟩

/-- The roll-cache path `sampleInfo` uses for target version `1.2.0`. -/
def rollPath120 : String := rollCachePath sampleInfo v120

def t41 : Fin 100 := ⟨41, by decide⟩

def verOk : VersionResponse := ⟨true, 200, some v120⟩

def chanceMissing : ChanceResponse := ⟨true, 404, true, none⟩

def chanceAt (c : Int) : ChanceResponse := ⟨true, 200, true, some c⟩

def binOk : BinaryResponse := ⟨true, true, 200, "MZupdater"⟩

def bin500 : BinaryResponse := ⟨true, true, 500, "Internal Server Error"⟩

/-- A run in which everything succeeds and the gate is ungated (404). -/
def envPass : Env := ⟨verOk, chanceMissing, binOk, t41, true, true⟩

def env500 : Env := ⟨verOk, chanceMissing, bin500, t41, true, true⟩

/-! ### Helper lemmas -/

theorem fs_read_write_self (fs : Fs) (p c : String) : (fs.write p c).read p = some c := by
  simp [Fs.read, Fs.write]

/-- The decimal text written for a fresh roll parses back to the roll. -/
theorem parse_fresh_roll (t : Fin 100) :
    parseIntJS (Nat.repr ((t : Nat) + 1)) = some (((t : Nat) : Int) + 1) := by
  revert t; decide

theorem fresh_roll_ne_zero (t : Fin 100) : (((t : Nat) : Int) + 1) ≠ 0 := by
  positivity

theorem checkChance_reqChance (info : Info) (v : SemVer) (resp : ChanceResponse)
    (t : Fin 100) (fs : Fs) : Ev.reqChance ∈ (checkChance info v resp t fs).events := by
  unfold checkChance
  split
  · simp
  · split
    · simp
    · split
      · simp
      · dsimp only
        split <;> simp

theorem checkChance_no_spawn (info : Info) (v : SemVer) (resp : ChanceResponse)
    (t : Fin 100) (fs : Fs) : spawnedIn (checkChance info v resp t fs).events = false := by
  unfold checkChance
  split
  · simp [spawnedIn]
  · split
    · simp [spawnedIn]
    · split
      · simp [spawnedIn]
      · dsimp only
        split <;> simp [spawnedIn, List.any_append, List.any_map, Function.comp]

end Bootstrap

namespace Bootstrap

/-- C5: when the chance endpoint returns 200 with an integer `chance`
field, the gate determines a roll and declares the installation eligible
exactly when `roll <= chance`; the tie `roll = chance` counts as
eligible, so `chance = 100` accepts every roll in `[1,100]`. -/
theorem gate_eligible_iff_roll_le_chance (info : Info) (v : SemVer)
    (c : Int) (t : Fin 100) (fs : Fs) :
    ∃ r : Int, (checkChance info v ⟨true, 200, true, some c⟩ t fs).rollUsed = some r ∧
      (checkChance info v ⟨true, 200, true, some c⟩ t fs).result = .ok (decide (r ≤ c)) := by
  unfold checkChance
  simp only [jsLe]
  norm_num
  split
  · exact ⟨_, rfl, rfl⟩
  · exact ⟨_, rfl, rfl⟩

theorem checkChance_non200 (info : Info) (v : SemVer) (resp : ChanceResponse)
    (t : Fin 100) (fs : Fs) (ht : resp.transportOk = true) (hs : resp.statusCode ≠ 200) :
    checkChance info v resp t fs =
      { result := .ok true, rollUsed := none, fs := fs, events := [.reqChance] } := by
  unfold checkChance
  simp [ht, hs]

/-- C7: a non-200 chance response makes the gate return `true` without
reading or writing the roll cache (the filesystem is untouched and the
only event is the chance request itself). -/
theorem gate_fail_open_on_non200 (info : Info) (v : SemVer) (resp : ChanceResponse)
    (t : Fin 100) (fs : Fs) (ht : resp.transportOk = true) (hs : resp.statusCode ≠ 200) :
    checkChance info v resp t fs =
      { result := .ok true, rollUsed := none, fs := fs, events := [.reqChance] } :=
  checkChance_non200 info v resp t fs ht hs

/-- C7 at a concrete input: a 404 on the chance endpoint. -/
theorem gate_fail_open_on_non200_witness :
    checkChance sampleInfo v120 chanceMissing t41 fsEmpty =
      { result := .ok true, rollUsed := none, fs := fsEmpty, events := [.reqChance] } :=
  gate_fail_open_on_non200 sampleInfo v120 chanceMissing t41 fsEmpty (by decide) (by decide)

end Bootstrap

namespace Bootstrap

/-- Normal form of a 200-status gate run whose cached roll is absent or
invalid: a fresh roll is drawn and persisted. -/
theorem checkChance_200_fresh (info : Info) (v : SemVer) (c : Option Int)
    (t : Fin 100) (fs : Fs) (h : getPreviousRoll fs (rollCachePath info v) = 0) :
    checkChance info v ⟨true, 200, true, c⟩ t fs =
      { result := .ok (jsLe (((t : Nat) : Int) + 1) c)
        rollUsed := some (((t : Nat) : Int) + 1)
        fs := fs.write (rollCachePath info v) (Nat.repr ((t : Nat) + 1))
        events := [.reqChance, .readRollCache (rollCachePath info v)] ++
          (ensureDirPaths (pathDirname (rollCachePath info v))).map Ev.mkdirIssued ++
          [.writeRollCache (rollCachePath info v)] } := by
  unfold checkChance
  norm_num [h]

/-- Normal form of a 200-status gate run with a reusable cached roll. -/
theorem checkChance_200_cached (info : Info) (v : SemVer) (c : Option Int)
    (t : Fin 100) (fs : Fs) (h : getPreviousRoll fs (rollCachePath info v) ≠ 0) :
    checkChance info v ⟨true, 200, true, c⟩ t fs =
      { result := .ok (jsLe (getPreviousRoll fs (rollCachePath info v)) c)
        rollUsed := some (getPreviousRoll fs (rollCachePath info v))
        fs := fs
        events := [.reqChance, .readRollCache (rollCachePath info v)] } := by
  unfold checkChance
  norm_num [h]

/-- Reading back a freshly persisted roll returns that roll. -/
theorem getPreviousRoll_after_write (fs : Fs) (p : String) (t : Fin 100) :
    getPreviousRoll (fs.write p (Nat.repr ((t : Nat) + 1))) p = ((t : Nat) : Int) + 1 := by
  unfold getPreviousRoll
  rw [fs_read_write_self]
  dsimp only
  rw [parse_fresh_roll]
  dsimp only
  rw [if_neg (fresh_roll_ne_zero t)]

/-- C3: for a fixed target version and cache directory, two consecutive
gate runs whose chance endpoint answers 200 both times use the same roll
value, even when the remote chance value differs between the calls; the
gate is idempotent in its roll per (cache directory, target version). -/
theorem gate_roll_idempotent (info : Info) (v : SemVer) (c1 c2 : Option Int)
    (t1 t2 : Fin 100) (fs : Fs) :
    ((checkChance info v ⟨true, 200, true, c2⟩ t2
        (checkChance info v ⟨true, 200, true, c1⟩ t1 fs).fs).rollUsed =
      (checkChance info v ⟨true, 200, true, c1⟩ t1 fs).rollUsed) ∧
    (checkChance info v ⟨true, 200, true, c1⟩ t1 fs).rollUsed.isSome = true := by
  by_cases h : getPreviousRoll fs (rollCachePath info v) = 0
  · rw [checkChance_200_fresh info v c1 t1 fs h]
    have h2 := getPreviousRoll_after_write fs (rollCachePath info v) t1
    rw [checkChance_200_cached info v c2 t2 _ (by rw [h2]; exact fresh_roll_ne_zero t1)]
    simp [h2]
  · rw [checkChance_200_cached info v c1 t1 fs h]
    rw [checkChance_200_cached info v c2 t2 fs h]
    simp

end Bootstrap

namespace Bootstrap

/-- C6 counterexample: a cache file containing `500` — far outside
`[1,100]` — is *reused* by the gate rather than treated as invalid: the
roll used is `500`, no fresh draw happens, and nothing is written. -/
theorem gate_reuses_out_of_range_roll :
    ((checkChance sampleInfo v120 (chanceAt 50) t41 ⟨[(rollPath120, "500")]⟩).rollUsed
        = some 500) ∧
    ¬ ((500 : Int) ≤ 100) ∧
    ((checkChance sampleInfo v120 (chanceAt 50) t41 ⟨[(rollPath120, "500")]⟩).fs =
      ⟨[(rollPath120, "500")]⟩) :=
  ⟨by decide, by decide, by decide⟩

/-- C6 (amended): the gate reuses whatever cached value `parseInt` turns
into a *nonzero* integer, with no `[1,100]` range check; a cache entry
that is missing, or whose content parses to `NaN` or `0` (empty,
non-numeric, `"0"`), counts as absent and triggers a fresh draw; every
fresh draw is an integer in `[1,100]` and is persisted to the roll cache
(after the parent directories are created) before the gate returns. -/
theorem gate_roll_validity (info : Info) (v : SemVer) (c : Option Int)
    (t : Fin 100) (fs : Fs) :
    (fs.read (rollCachePath info v) = none →
      getPreviousRoll fs (rollCachePath info v) = 0)
    ∧ (∀ data, fs.read (rollCachePath info v) = some data →
        parseIntJS data = none ∨ parseIntJS data = some 0 →
        getPreviousRoll fs (rollCachePath info v) = 0)
    ∧ (getPreviousRoll fs (rollCachePath info v) = 0 →
      (checkChance info v ⟨true, 200, true, c⟩ t fs).rollUsed = some (((t : Nat) : Int) + 1) ∧
      1 ≤ ((t : Nat) : Int) + 1 ∧ ((t : Nat) : Int) + 1 ≤ 100 ∧
      (checkChance info v ⟨true, 200, true, c⟩ t fs).fs.read (rollCachePath info v) =
        some (Nat.repr ((t : Nat) + 1)) ∧
      Ev.writeRollCache (rollCachePath info v) ∈
        (checkChance info v ⟨true, 200, true, c⟩ t fs).events)
    ∧ (getPreviousRoll fs (rollCachePath info v) ≠ 0 →
      (checkChance info v ⟨true, 200, true, c⟩ t fs).rollUsed =
        some (getPreviousRoll fs (rollCachePath info v)) ∧
      (checkChance info v ⟨true, 200, true, c⟩ t fs).fs = fs) := by
  refine ⟨fun h => ?_, fun data hread hparse => ?_, fun h => ?_, fun h => ?_⟩
  · unfold getPreviousRoll
    rw [h]
  · unfold getPreviousRoll
    rw [hread]
    dsimp only
    rcases hparse with h0 | h0
    · rw [h0]
    · rw [h0]
      simp
  · rw [checkChance_200_fresh info v c t fs h]
    refine ⟨rfl, by omega, ?_, fs_read_write_self fs _ _, by simp⟩
    have := t.isLt
    omega
  · rw [checkChance_200_cached info v c t fs h]
    exact ⟨rfl, rfl⟩

end Bootstrap

namespace Bootstrap

theorem getVersion_ok_some_iff (resp : VersionResponse) (v : SemVer) :
    getVersion resp = .ok (some v) ↔
      resp.transportOk = true ∧ resp.statusCode = 200 ∧ resp.version = some v := by
  unfold getVersion
  by_cases h1 : resp.transportOk = true
  · by_cases h2 : resp.statusCode = 200
    · simp [h1, h2]
    · simp [h1, h2]
  · simp [h1]

/-- Whenever the remote version is not fetched as strictly greater than
the current one, `entry` stops after the version stage: no further
request, no window, and a `false` (or rejected) outcome. -/
theorem entry_no_gate (info : Info) (env : Env) (fs : Fs)
    (h : ∀ v, getVersion env.versionResp = .ok (some v) →
      semverCompare info.version v ≠ .lt) :
    (entry info env fs).events = [.reqVersion] ∧
    (entry info env fs).windowOpen = false ∧
    ((entry info env fs).result = some (.ok false) ∨
      ∃ e, (entry info env fs).result = some (.error e)) := by
  unfold entry
  rcases hgv : getVersion env.versionResp with e | ov
  · exact ⟨rfl, rfl, .inr ⟨e, rfl⟩⟩
  · cases ov with
    | none => exact ⟨rfl, rfl, .inl rfl⟩
    | some v =>
      have hne := h v hgv
      dsimp only
      rcases ho : semverCompare info.version v
      · exact absurd ho hne
      · simp
      · simp

/-- Every trace of the gate stage carries the chance request. -/
theorem gateStage_reqChance (info : Info) (env : Env) (latest : SemVer) (fs : Fs) :
    Ev.reqChance ∈ (gateStage info env latest fs).events := by
  unfold gateStage
  dsimp only
  split
  · simp [checkChance_reqChance]
  · simp [checkChance_reqChance]
  · unfold downloadAndLaunch
    dsimp only
    split
    · simp [checkChance_reqChance]
    · simp [checkChance_reqChance]
    · split
      · simp [checkChance_reqChance]
      · split <;> simp [checkChance_reqChance]

/-- When the remote version is strictly greater, `entry` reaches the
rollout gate: the chance request is in the trace. -/
theorem entry_gate_reached (info : Info) (env : Env) (fs : Fs) (v : SemVer)
    (hgv : getVersion env.versionResp = .ok (some v))
    (hlt : semverCompare info.version v = .lt) :
    Ev.reqChance ∈ (entry info env fs).events := by
  unfold entry
  rw [hgv]
  dsimp only
  have hne1 : ¬ (semverCompare info.version v = Ordering.eq) := by
    rw [hlt]
    decide
  have hne2 : ¬ (semverCompare info.version v = Ordering.gt) := by
    rw [hlt]
    decide
  rw [if_neg hne1, if_neg hne2]
  exact gateStage_reqChance info env v fs

/-- C2: the run proceeds past version resolution to the rollout gate
exactly when the version fetch succeeds (transport up, status 200, a
version in the body) and the remote version is strictly greater than
the current one in semantic-version order; whenever the gate is not
reached — equal or lower remote version, failed or empty fetch — the
run resolves to `false` without any gating. -/
theorem update_proceeds_iff_remote_greater (info : Info) (env : Env) (fs : Fs) :
    (Ev.reqChance ∈ (bootstrap info env fs).events ↔
      env.versionResp.transportOk = true ∧ env.versionResp.statusCode = 200 ∧
        ∃ v, env.versionResp.version = some v ∧ semverCompare info.version v = .lt)
    ∧ (Ev.reqChance ∉ (bootstrap info env fs).events →
        (bootstrap info env fs).result = some false) := by
  by_cases hyp : ∃ v, getVersion env.versionResp = .ok (some v) ∧
      semverCompare info.version v = .lt
  · rcases hyp with ⟨v, hgv, hlt⟩
    have hmem := entry_gate_reached info env fs v hgv hlt
    have hmem2 : Ev.reqChance ∈ (bootstrap info env fs).events := by
      unfold bootstrap
      dsimp only
      split <;> simp [hmem]
    refine ⟨⟨fun _ => ?_, fun _ => hmem2⟩, fun hno => absurd hmem2 hno⟩
    have hc := (getVersion_ok_some_iff env.versionResp v).mp hgv
    exact ⟨hc.1, hc.2.1, v, hc.2.2, hlt⟩
  · have h' : ∀ v, getVersion env.versionResp = .ok (some v) →
        semverCompare info.version v ≠ .lt := by
      intro v hv hlt
      exact hyp ⟨v, hv, hlt⟩
    obtain ⟨hevs, hwin, hres⟩ := entry_no_gate info env fs h'
    have hband : (bootstrap info env fs).events = [.reqVersion] ∧
        (bootstrap info env fs).result = some false := by
      unfold bootstrap
      dsimp only
      rcases hres with hok | ⟨e, herr⟩
      · rw [hok]
        exact ⟨hevs, rfl⟩
      · rw [herr]
        refine ⟨?_, rfl⟩
        rw [hevs, hwin]
        simp
    refine ⟨⟨fun hmem => ?_, fun hrhs => ?_⟩, fun _ => hband.2⟩
    · rw [hband.1] at hmem
      simp at hmem
    · rcases hrhs with ⟨h1, h2, v, h3, hlt⟩
      exact absurd ((getVersion_ok_some_iff env.versionResp v).mpr ⟨h1, h2, h3⟩)
        (fun hv => hyp ⟨v, hv, hlt⟩)

end Bootstrap

namespace Bootstrap

theorem fetchUpdater_events (info : Info) (resp : BinaryResponse) (fs : Fs) :
    (fetchUpdater info resp fs).events =
      [.fileCreated (pathJoin info.tempDir "latest-updater.exe"), .reqBinary] := by
  unfold fetchUpdater
  dsimp only
  split
  · rfl
  · split
    · rfl
    · split <;> rfl

theorem spawnedIn_append (a b : List Ev) :
    spawnedIn (a ++ b) = (spawnedIn a || spawnedIn b) := by
  simp [spawnedIn]

theorem spawnedIn_map_mkdir (l : List String) :
    spawnedIn (l.map Ev.mkdirIssued) = false := by
  induction l with
  | nil => rfl
  | cons d ds ih => simp [spawnedIn] at ih ⊢

theorem fetchUpdater_no_spawn (info : Info) (resp : BinaryResponse) (fs : Fs) :
    spawnedIn (fetchUpdater info resp fs).events = false := by
  rw [fetchUpdater_events]
  rfl


theorem spawnedIn_ite_opened (b : Bool) :
    spawnedIn (if b = true then [Ev.windowOpened] else []) = false := by
  cases b <;> rfl

theorem spawnedIn_ite_closed (b : Bool) :
    spawnedIn (if b = true then [Ev.windowClosed] else []) = false := by
  cases b <;> rfl

theorem spawnedIn_cons_reqVersion (l : List Ev) :
    spawnedIn (Ev.reqVersion :: l) = spawnedIn l := rfl

/-- None of the events recorded before the spawn itself is a spawn. -/
theorem spawnedIn_launch_trace (info : Info) (env : Env) (fs : Fs)
    (pre : List Ev) (hpre : spawnedIn pre = false) :
    spawnedIn (pre ++
      (if env.windowOk = true then [Ev.windowOpened] else []) ++
      ((ensureDirPaths info.tempDir).take 1).map Ev.mkdirIssued ++
      (fetchUpdater info env.binaryResp fs).events ++
      ((ensureDirPaths info.tempDir).drop 1).map Ev.mkdirIssued) = false := by
  rw [spawnedIn_append, spawnedIn_append, spawnedIn_append, spawnedIn_append,
    hpre, spawnedIn_map_mkdir, spawnedIn_map_mkdir, fetchUpdater_no_spawn,
    spawnedIn_ite_opened]
  rfl

/-- In the download-and-launch tail, a `true` outcome coincides with a
spawn event, and any resolution leaves the window closed. -/
theorem downloadAndLaunch_spawn (info : Info) (env : Env) (latest : SemVer)
    (fs : Fs) (pre : List Ev) (hpre : spawnedIn pre = false) :
    ((downloadAndLaunch info env latest fs pre).result = some (.ok true) ↔
      spawnedIn (downloadAndLaunch info env latest fs pre).events = true) ∧
    (∀ b, (downloadAndLaunch info env latest fs pre).result = some (.ok b) →
      (downloadAndLaunch info env latest fs pre).windowOpen = false) := by
  have hnos := spawnedIn_launch_trace info env fs pre hpre
  unfold downloadAndLaunch
  dsimp only
  split
  · refine ⟨?_, fun b hb => absurd hb (by simp)⟩
    rw [hnos]
    simp
  · refine ⟨?_, fun b hb => absurd hb (by simp)⟩
    rw [hnos]
    simp
  · split
    · refine ⟨?_, fun b hb => absurd hb (by simp)⟩
      rw [hnos]
      simp
    · split
      · refine ⟨?_, fun b hb => rfl⟩
        rw [spawnedIn_append, spawnedIn_append]
        simp [spawnedIn]
      · refine ⟨?_, fun b hb => absurd hb (by simp)⟩
        rw [hnos]
        simp

theorem gateStage_spawn (info : Info) (env : Env) (latest : SemVer) (fs : Fs) :
    ((gateStage info env latest fs).result = some (.ok true) ↔
      spawnedIn (gateStage info env latest fs).events = true) ∧
    (∀ b, (gateStage info env latest fs).result = some (.ok b) →
      (gateStage info env latest fs).windowOpen = false) := by
  unfold gateStage
  dsimp only
  split
  · refine ⟨?_, fun b hb => absurd hb (by simp)⟩
    rw [spawnedIn_cons_reqVersion, checkChance_no_spawn]
    simp
  · refine ⟨?_, fun b hb => rfl⟩
    rw [spawnedIn_cons_reqVersion, checkChance_no_spawn]
    simp
  · exact downloadAndLaunch_spawn info env latest _ _
      (by rw [spawnedIn_cons_reqVersion, checkChance_no_spawn])

theorem entry_spawn (info : Info) (env : Env) (fs : Fs) :
    ((entry info env fs).result = some (.ok true) ↔
      spawnedIn (entry info env fs).events = true) ∧
    (∀ b, (entry info env fs).result = some (.ok b) →
      (entry info env fs).windowOpen = false) := by
  unfold entry
  rcases hgv : getVersion env.versionResp with e | ov
  · exact ⟨by simp [spawnedIn], fun b hb => absurd hb (by simp)⟩
  · cases ov with
    | none => exact ⟨by simp [spawnedIn], fun b hb => rfl⟩
    | some v =>
      dsimp only
      rcases ho : semverCompare info.version v
      · simpa using gateStage_spawn info env v fs
      · exact ⟨by simp [spawnedIn], fun b hb => rfl⟩
      · exact ⟨by simp [spawnedIn], fun b hb => rfl⟩

/-- When the binary transport holds, the download promise settles. -/
theorem fetchUpdater_settles (info : Info) (resp : BinaryResponse) (fs : Fs)
    (ht : resp.transportOk = true) :
    ∃ y, (fetchUpdater info resp fs).result = some y := by
  unfold fetchUpdater
  dsimp only
  split
  · next h => exact absurd ht h
  · split
    · exact ⟨_, rfl⟩
    · split
      · exact ⟨_, rfl⟩
      · exact ⟨_, rfl⟩

/-- When the binary transport holds, `entry`'s promise settles. -/
theorem entry_settles (info : Info) (env : Env) (fs : Fs)
    (ht : env.binaryResp.transportOk = true) :
    ∃ x, (entry info env fs).result = some x := by
  unfold entry
  rcases hgv : getVersion env.versionResp with e | ov
  · exact ⟨_, rfl⟩
  · cases ov with
    | none => exact ⟨_, rfl⟩
    | some v =>
      dsimp only
      rcases ho : semverCompare info.version v
      · have hg : ∃ x, (gateStage info env v fs).result = some x := by
          unfold gateStage
          dsimp only
          split
          · exact ⟨_, rfl⟩
          · exact ⟨_, rfl⟩
          · unfold downloadAndLaunch
            dsimp only
            obtain ⟨y, hy⟩ := fetchUpdater_settles info env.binaryResp _ ht
            split
            · next heq => exact absurd (heq.symm.trans hy) (by simp)
            · exact ⟨_, rfl⟩
            · split
              · exact ⟨_, rfl⟩
              · split
                · exact ⟨_, rfl⟩
                · exact ⟨_, rfl⟩
        simpa using hg
      · exact ⟨_, rfl⟩
      · exact ⟨_, rfl⟩

/-- On every run whose binary transport holds, the exported pipeline is
total: it delivers a boolean, the window ends closed, and the result is
`true` exactly when the successor process was spawned. -/
theorem bootstrap_settled_total (info : Info) (env : Env) (fs : Fs)
    (ht : env.binaryResp.transportOk = true) :
    (bootstrap info env fs).result.isSome = true ∧
    (bootstrap info env fs).windowOpen = false ∧
    ((bootstrap info env fs).result = some true ↔
      spawnedIn (bootstrap info env fs).events = true) := by
  obtain ⟨hiff, hwin⟩ := entry_spawn info env fs
  obtain ⟨x, hx⟩ := entry_settles info env fs ht
  unfold bootstrap
  dsimp only
  rcases x with e | b
  · have hsf : spawnedIn (entry info env fs).events = false := by
      rcases hsp : spawnedIn (entry info env fs).events
      · rfl
      · exact absurd (hiff.mpr hsp) (by rw [hx]; simp)
    rw [hx]
    refine ⟨rfl, rfl, ?_⟩
    rw [spawnedIn_append, hsf, spawnedIn_ite_closed]
    simp
  · cases b
    · have hsf : spawnedIn (entry info env fs).events = false := by
        rcases hsp : spawnedIn (entry info env fs).events
        · rfl
        · exact absurd (hiff.mpr hsp) (by rw [hx]; simp)
      rw [hx]
      refine ⟨rfl, hwin false hx, ?_⟩
      rw [hsf]
      simp
    · rw [hx]
      refine ⟨rfl, hwin true hx, ?_⟩
      rw [hiff.mp hx]
      simp

end Bootstrap

namespace Bootstrap

def chanceBadJson : ChanceResponse := ⟨true, 200, false, none⟩

def envBadJson : Env := ⟨verOk, chanceBadJson, binOk, t41, true, true⟩

def infoPids : Info := { sampleInfo with waitPids := [111, 222] }

/-- A rejected gate propagates its error through the gate stage. -/
theorem gateStage_error (info : Info) (env : Env) (latest : SemVer) (fs : Fs)
    (er : JsErr)
    (h : (checkChance info latest env.chanceResp env.rand fs).result = .error er) :
    (gateStage info env latest fs).result = some (.error er) := by
  unfold gateStage
  dsimp only
  split
  · next e heq =>
    dsimp only
    rw [heq.symm.trans h]
  · next heq => exact absurd (heq.symm.trans h) (by simp)
  · next heq => exact absurd (heq.symm.trans h) (by simp)

/-- A rejected download propagates its error through the launch tail. -/
theorem downloadAndLaunch_fetch_error (info : Info) (env : Env) (latest : SemVer)
    (fs : Fs) (pre : List Ev) (er : JsErr)
    (h : (fetchUpdater info env.binaryResp fs).result = some (.error er)) :
    (downloadAndLaunch info env latest fs pre).result = some (.error er) := by
  unfold downloadAndLaunch
  dsimp only
  split
  · next heq => exact absurd (heq.symm.trans h) (by simp)
  · next e heq =>
    dsimp only
    have h2 : e = er := by
      have h3 := heq.symm.trans h
      injection h3 with h4
      injection h4
    rw [h2]
  · next heq => exact absurd (heq.symm.trans h) (by simp)

/-- If the gate always rejects, the run neither resolves `true` nor
hangs: the gate's rejection settles the promise before the download. -/
theorem entry_no_gate_pass_of_gate_error (info : Info) (env : Env) (fs : Fs)
    (er : JsErr)
    (h : ∀ v fs2, (checkChance info v env.chanceResp env.rand fs2).result = .error er) :
    (entry info env fs).result ≠ some (.ok true) ∧
    (entry info env fs).result ≠ none := by
  unfold entry
  rcases hgv : getVersion env.versionResp with e | ov
  · exact ⟨by simp, by simp⟩
  · cases ov with
    | none => exact ⟨by simp, by simp⟩
    | some v =>
      dsimp only
      rcases ho : semverCompare info.version v
      · have hg := gateStage_error info env v fs er (h v fs)
        exact ⟨by simp [hg], by simp [hg]⟩
      · exact ⟨by simp, by simp⟩
      · exact ⟨by simp, by simp⟩

/-- If the download always rejects, the run can never resolve `true`. -/
theorem entry_no_ok_true_of_fetch_error (info : Info) (env : Env) (fs : Fs)
    (hf : ∀ fs2, ∃ er, (fetchUpdater info env.binaryResp fs2).result = some (.error er)) :
    (entry info env fs).result ≠ some (.ok true) := by
  unfold entry
  rcases hgv : getVersion env.versionResp with e | ov
  · simp
  · cases ov with
    | none => simp
    | some v =>
      dsimp only
      rcases ho : semverCompare info.version v
      · have hg : (gateStage info env v fs).result ≠ some (.ok true) := by
          unfold gateStage
          dsimp only
          split
          · simp
          · simp
          · obtain ⟨er, herr⟩ := hf _
            rw [downloadAndLaunch_fetch_error info env v _ _ er herr]
            simp
        simpa using hg
      · simp
      · simp

/-- C10: a 200 chance response whose body is not valid JSON makes the
gate throw (`JSON.parse`) instead of failing open, so the whole run
resolves to `false` with no update attempted — unlike a non-200 chance
response, which makes the gate return `true`. -/
theorem invalid_chance_json_fails_run (info : Info) (env : Env) (fs : Fs)
    (ht : env.chanceResp.transportOk = true)
    (hs : env.chanceResp.statusCode = 200)
    (hj : env.chanceResp.bodyValidJson = false) :
    (bootstrap info env fs).result = some false ∧
    (∀ v t fs2, (checkChance info v env.chanceResp t fs2).result = .error .jsonParse) ∧
    (∀ (resp : ChanceResponse) v t fs2, resp.transportOk = true →
      resp.statusCode ≠ 200 → (checkChance info v resp t fs2).result = .ok true) := by
  have herr : ∀ v t fs2,
      (checkChance info v env.chanceResp t fs2).result = .error .jsonParse := by
    intro v t fs2
    unfold checkChance
    simp [ht, hs, hj]
  refine ⟨?_, herr, fun resp v t fs2 h1 h2 => by
    rw [checkChance_non200 info v resp t fs2 h1 h2]⟩
  obtain ⟨hne1, hne2⟩ := entry_no_gate_pass_of_gate_error info env fs .jsonParse
    (fun v fs2 => herr v env.rand fs2)
  unfold bootstrap
  dsimp only
  rcases hres : (entry info env fs).result with _ | x
  · exact absurd hres hne2
  · rcases x with e | b
    · rfl
    · cases b
      · rfl
      · exact absurd hres hne1

/-- C10 at a concrete input: version `1.0.0 -> 1.2.0`, chance endpoint
200 with a malformed body. -/
theorem invalid_chance_json_fails_run_witness :
    (bootstrap sampleInfo envBadJson fsEmpty).result = some false ∧
    (∀ v t fs2,
      (checkChance sampleInfo v envBadJson.chanceResp t fs2).result = .error .jsonParse) ∧
    (∀ (resp : ChanceResponse) v t fs2, resp.transportOk = true →
      resp.statusCode ≠ 200 → (checkChance sampleInfo v resp t fs2).result = .ok true) :=
  invalid_chance_json_fails_run sampleInfo envBadJson fsEmpty rfl rfl rfl

end Bootstrap

namespace Bootstrap

/-- Normal form of a non-200 download: the promise rejects, but the
write stream created at call time receives the piped error body. -/
theorem fetchUpdater_non200 (info : Info) (resp : BinaryResponse) (fs : Fs)
    (ht : resp.transportOk = true) (hstream : resp.streamOk = true)
    (hs : resp.statusCode ≠ 200) :
    fetchUpdater info resp fs =
      { result := some (.error (.fetchFailed resp.statusCode))
        fs := (fs.write (pathJoin info.tempDir "latest-updater.exe") "").write
          (pathJoin info.tempDir "latest-updater.exe") resp.body
        events := [Ev.fileCreated (pathJoin info.tempDir "latest-updater.exe"),
          Ev.reqBinary] } := by
  unfold fetchUpdater
  simp [ht, hstream, hs]

/-- C8 counterexample: binary endpoint answers 500; the run aborts with
`false` and no spawn, but the temp directory is *not* left without a
downloaded file — `latest-updater.exe` exists and holds the error
body. -/
theorem download_non200_leaves_junk_file :
    (bootstrap sampleInfo env500 fsEmpty).result = some false ∧
    spawnedIn (bootstrap sampleInfo env500 fsEmpty).events = false ∧
    (bootstrap sampleInfo env500 fsEmpty).fs.read "C:\\app\\temp\\latest-updater.exe" =
      some "Internal Server Error" :=
  ⟨by decide, by decide, by decide⟩

/-- C8 (amended): a non-200 binary response is fatal for the run — the
result is `false`, no exception escapes, no successor process is
spawned — but the downloader has already created
`tempDir\latest-updater.exe` when it opened its write stream and the
non-200 body is piped into it, so a junk file does remain in the temp
directory (nothing references it, since the launcher never runs). -/
theorem download_non200_aborts (info : Info) (env : Env) (fs : Fs)
    (hs : env.binaryResp.statusCode ≠ 200)
    (ht : env.binaryResp.transportOk = true)
    (hstream : env.binaryResp.streamOk = true) :
    (bootstrap info env fs).result = some false ∧
    spawnedIn (bootstrap info env fs).events = false ∧
    (∀ fs2 : Fs, (fetchUpdater info env.binaryResp fs2).fs.read
      (pathJoin info.tempDir "latest-updater.exe") = some env.binaryResp.body) := by
  have hf : ∀ fs2, ∃ er,
      (fetchUpdater info env.binaryResp fs2).result = some (.error er) := by
    intro fs2
    refine ⟨.fetchFailed env.binaryResp.statusCode, ?_⟩
    rw [fetchUpdater_non200 info env.binaryResp fs2 ht hstream hs]
  have hnot := entry_no_ok_true_of_fetch_error info env fs hf
  obtain ⟨x, hx⟩ := entry_settles info env fs ht
  obtain ⟨hiff, hwin⟩ := entry_spawn info env fs
  have hsf : spawnedIn (entry info env fs).events = false := by
    rcases hsp : spawnedIn (entry info env fs).events
    · rfl
    · exact absurd (hiff.mpr hsp) hnot
  refine ⟨?_, ?_, ?_⟩
  · unfold bootstrap
    dsimp only
    rcases x with e | b
    · rw [hx]
    · cases b
      · rw [hx]
      · exact absurd hx hnot
  · unfold bootstrap
    dsimp only
    rcases x with e | b
    · rw [hx]
      dsimp only
      rw [spawnedIn_append, hsf, spawnedIn_ite_closed]
      rfl
    · rw [hx]
      exact hsf
  · intro fs2
    rw [fetchUpdater_non200 info env.binaryResp fs2 ht hstream hs]
    exact fs_read_write_self _ _ _

/-- C8 witness at a concrete input: the 500 response of `env500`. -/
theorem download_non200_aborts_witness :
    (bootstrap sampleInfo env500 fsEmpty).result = some false ∧
    spawnedIn (bootstrap sampleInfo env500 fsEmpty).events = false ∧
    (∀ fs2 : Fs, (fetchUpdater sampleInfo env500.binaryResp fs2).fs.read
      (pathJoin sampleInfo.tempDir "latest-updater.exe") =
        some env500.binaryResp.body) :=
  download_non200_aborts sampleInfo env500 fsEmpty (by decide) rfl rfl

/-- C4: at the failing input `waitPids = [111, 222]` (an otherwise fully
successful run: newer remote version, ungated, download 200, spawn
possible) the argument-building loop throws a `TypeError` — `push_back`
is not a JavaScript array method, and `for..in` would yield the indices
rather than the pids anyway — so the run resolves `false` and no
successor process is spawned; the claimed two `-p`-flag/value pairs are
never produced.  With an empty `waitPids` the same run spawns the
updater with exactly the six-flag base argument list, each path-valued
argument individually quoted. -/
theorem waitpids_loop_throws :
    (entry infoPids envPass fsEmpty).result = some (.error .typeError) ∧
    (bootstrap infoPids envPass fsEmpty).result = some false ∧
    spawnedIn (bootstrap infoPids envPass fsEmpty).events = false ∧
    (bootstrap sampleInfo envPass fsEmpty).result = some true ∧
    (bootstrap sampleInfo envPass fsEmpty).events.contains
      (Ev.spawned "C:\\app\\temp\\latest-updater.exe"
        ["--base-url", "\"https://slobs-cdn.example.com\"",
         "--version", "\"1.2.0\"",
         "--exec", "\"C:\\app\\Streamlabs OBS.exe\"",
         "--cwd", "\"C:\\app\"",
         "--app-dir", "\"C:\\app\\resources\"",
         "--force-temp"]) = true :=
  ⟨by decide, by decide, by decide, by decide, by decide⟩

/-- C9: in a gate-passing run with the three-component temp directory
`C:\app\temp`, the download's write stream is created *before* the
`mkdir` for the full temp directory has even been issued — the
un-awaited `ensureDir(info.tempDir)` is not sequenced before the
download starts writing (the claimed ordering never occurs in the
trace, the converse ordering does). -/
theorem tempdir_not_ensured_before_download :
    Ev.fileCreated "C:\\app\\temp\\latest-updater.exe" ∈
      (bootstrap sampleInfo envPass fsEmpty).events ∧
    Ev.mkdirIssued "C:\\app\\temp" ∈ (bootstrap sampleInfo envPass fsEmpty).events ∧
    evBefore (bootstrap sampleInfo envPass fsEmpty).events
      (Ev.mkdirIssued "C:\\app\\temp")
      (Ev.fileCreated "C:\\app\\temp\\latest-updater.exe") = false ∧
    evBefore (bootstrap sampleInfo envPass fsEmpty).events
      (Ev.fileCreated "C:\\app\\temp\\latest-updater.exe")
      (Ev.mkdirIssued "C:\\app\\temp") = true :=
  ⟨by decide, by decide, by decide, by decide⟩

end Bootstrap

namespace Bootstrap

/-- A transport-level failure of the binary download. -/
def binCrash : BinaryResponse := ⟨false, true, 200, ""⟩

/-- A gate-passing run whose binary download fails at the transport
level: the request stream emits `error` with nothing listening. -/
def envCrash : Env := ⟨verOk, chanceMissing, binCrash, t41, true, true⟩

/-- C1: the claim fails on the code.  At the failing input — a
gate-passing run whose binary download fails at the transport level —
the `request` stream emits `error` with no listener attached: `error`
events do not cross `.pipe`, and `fetchUpdater`'s reject handler sits
on the file stream, so the rejection path never runs, the download
promise never settles, the caller never receives a boolean, and the
status window stays open while the unhandled error takes down the
process.  On every run whose binary transport holds — every other
environment — the pipeline is total exactly as the claim states: it
resolves to a boolean, the window ends closed, and the result is `true`
precisely when the successor process was spawned. -/
theorem binary_transport_error_uncaught :
    (bootstrap sampleInfo envCrash fsEmpty).result = none ∧
    (bootstrap sampleInfo envCrash fsEmpty).windowOpen = true ∧
    (∀ (info : Info) (env : Env) (fs : Fs), env.binaryResp.transportOk = true →
      (bootstrap info env fs).result.isSome = true ∧
      (bootstrap info env fs).windowOpen = false ∧
      ((bootstrap info env fs).result = some true ↔
        spawnedIn (bootstrap info env fs).events = true)) :=
  ⟨by decide, by decide, fun info env fs ht => bootstrap_settled_total info env fs ht⟩

end Bootstrap
